import Mathlib

/-!
Verification of the PySME Configuration Resolution Engine.

This file embeds, in Lean 4, the data model and operations of the PySME
repository that the specification talks about:

  - src/pysme/builder/tailwind.py  (deep_merge, TailwindConfig)
  - src/pysme/builder/config.py    (BuildConfig and its validation)
  - src/pysme/config_loader.py     (environment overrides, load_pysme_config)
  - src/pysme/errors.py            (the PySmeError taxonomy and wrap_exception)

Python dictionaries are modelled as association lists over String keys
(Python dicts preserve insertion order, update a key in place, and append
new keys at the end; the corresponding operations are dictGet / dictSet).
Python exceptions are modelled by the inductive type PyExc; fallible
Python code is modelled with Except PyExc.
-/

set_option maxHeartbeats 1000000

namespace PySME

/-- A Python value as it can appear in a Tailwind theme tree: a JSON-like
tagged union (string, integer, boolean, None, list, dict).  Dicts are
association lists of string keys (insertion ordered, as in Python). -/
inductive PyVal : Type where
  | str : String → PyVal
  | int : Int → PyVal
  | bool : Bool → PyVal
  | none : PyVal
  | list : List PyVal → PyVal
  | dict : List (String × PyVal) → PyVal

/-- Python dict lookup `d[k]` / `d.get(k)`: the value at key `k`, if present
(first occurrence; a real Python dict has unique keys). -/
def dictGet {α : Type} : List (String × α) → String → Option α
  | [], _ => Option.none
  | (k1, v1) :: rest, k => if k1 = k then some v1 else dictGet rest k

/-- Python dict assignment `d[k] = v`: updates the value at `k` in place
(keeping its position) when `k` is present, otherwise appends `(k, v)`. -/
def dictSet {α : Type} : List (String × α) → String → α → List (String × α)
  | [], k, v => [(k, v)]
  | (k1, v1) :: rest, k, v =>
      if k1 = k then (k, v) :: rest else (k1, v1) :: dictSet rest k v

/-- The keys of a dict, in order. -/
def dictKeys {α : Type} (d : List (String × α)) : List String :=
  d.map Prod.fst

/-- Embeds `deep_merge` from src/pysme/builder/tailwind.py (lines 16-30):

    result = deepcopy(a)
    for k, v in b.items():
        if k in result and isinstance(result[k], Dict) and isinstance(v, Dict):
            result[k] = deep_merge(result[k], v)
        else:
            result[k] = deepcopy(v)
    return result

In this pure value model `deepcopy` is the identity on values (object
identity and aliasing are treated separately, see the labelled model
below).  The first argument plays the role of the evolving `result`. -/
def deep_merge : List (String × PyVal) → List (String × PyVal) → List (String × PyVal)
  | result, [] => result
  | result, (k, v) :: rest =>
      match dictGet result k, v with
      | some (PyVal.dict ra), PyVal.dict vb =>
          deep_merge (dictSet result k (PyVal.dict (deep_merge ra vb))) rest
      | _, _ =>
          deep_merge (dictSet result k v) rest
termination_by _a b => sizeOf b
decreasing_by
  all_goals simp_wf
  all_goals omega

/-- The per-key conflict rule of the deep merge, as stated by the spec:
for a key present in both sides, if both values are mappings the merge
recurses, otherwise the right-hand value wins outright; a key present on
one side only keeps that side's value. -/
def mergeLookup : Option PyVal → Option PyVal → Option PyVal
  | some (PyVal.dict ra), some (PyVal.dict vb) => some (PyVal.dict (deep_merge ra vb))
  | _, some vb => some vb
  | oa, Option.none => oa

theorem mergeLookup_none (oa : Option PyVal) : mergeLookup oa Option.none = oa := by
  rcases oa with _ | v
  · rfl
  · cases v <;> rfl

theorem dictGet_dictSet_same {α : Type} (d : List (String × α)) (k : String) (v : α) :
    dictGet (dictSet d k v) k = some v := by
  induction d with
  | nil => simp [dictGet, dictSet]
  | cons hd tl ih =>
      obtain ⟨k1, v1⟩ := hd
      by_cases h : k1 = k
      · simp [dictGet, dictSet, h]
      · simp [dictGet, dictSet, h, ih]

theorem dictGet_dictSet_ne {α : Type} (d : List (String × α)) (k q : String) (v : α)
    (h : q ≠ k) : dictGet (dictSet d k v) q = dictGet d q := by
  induction d with
  | nil => simp [dictGet, dictSet, Ne.symm h]
  | cons hd tl ih =>
      obtain ⟨k1, v1⟩ := hd
      by_cases h1 : k1 = k
      · subst h1
        simp [dictGet, dictSet, Ne.symm h]
      · by_cases h2 : k1 = q
        · simp [dictGet, dictSet, h1, h2, h]
        · simp [dictGet, dictSet, h1, h2, ih]

theorem dictGet_eq_none_of_not_mem {α : Type} (d : List (String × α)) (k : String)
    (h : k ∉ dictKeys d) : dictGet d k = Option.none := by
  induction d with
  | nil => rfl
  | cons hd tl ih =>
      obtain ⟨k1, v1⟩ := hd
      simp only [dictKeys, List.map_cons, List.mem_cons] at h
      push_neg at h
      simp [dictGet, Ne.symm h.1, ih (by simpa [dictKeys] using h.2)]

/-- Lookup characterization of `deep_merge`: for every key, the merged dict
holds exactly what the per-key conflict rule prescribes.  The hypothesis
that the keys of `b` are distinct always holds for a real Python dict. -/
theorem deep_merge_lookup (a b : List (String × PyVal))
    (hb : (dictKeys b).Nodup) (q : String) :
    dictGet (deep_merge a b) q = mergeLookup (dictGet a q) (dictGet b q) := by
  induction b generalizing a with
  | nil => simp [deep_merge, mergeLookup_none, dictGet]
  | cons hd rest ih =>
      obtain ⟨k, v⟩ := hd
      simp only [dictKeys, List.map_cons, List.nodup_cons] at hb
      have hrest : (dictKeys rest).Nodup := hb.2
      have hknotin : k ∉ dictKeys rest := by simpa [dictKeys] using hb.1
      by_cases hq : q = k
      · subst hq
        have hbres : dictGet rest q = Option.none := dictGet_eq_none_of_not_mem rest q hknotin
        have hhd : dictGet ((q, v) :: rest) q = some v := by simp [dictGet]
        rcases hget : dictGet a q with _ | va
        · rcases v with s | i | bb | _ | l | d <;>
            simp [deep_merge, hget, ih _ hrest, hbres, mergeLookup_none,
              dictGet_dictSet_same, hhd, mergeLookup]
        · rcases va with s | i | bb | _ | l | d <;>
            rcases v with s2 | i2 | bb2 | _ | l2 | d2 <;>
              simp [deep_merge, hget, ih _ hrest, hbres, mergeLookup_none,
                dictGet_dictSet_same, hhd, mergeLookup]
      · have hhd : dictGet ((k, v) :: rest) q = dictGet rest q := by
          simp [dictGet, Ne.symm hq]
        rcases hget : dictGet a k with _ | va
        · rcases v with s | i | bb | _ | l | d <;>
            simp [deep_merge, hget, ih _ hrest, hhd, dictGet_dictSet_ne _ _ _ _ hq]
        · rcases va with s | i | bb | _ | l | d <;>
            rcases v with s2 | i2 | bb2 | _ | l2 | d2 <;>
              simp [deep_merge, hget, ih _ hrest, hhd, dictGet_dictSet_ne _ _ _ _ hq]

/-- Embeds the `TailwindConfig` dataclass from src/pysme/builder/tailwind.py
(lines 33-37), with its field defaults.  The spec calls it ThemeConfig. -/
structure TailwindConfig : Type where
  content : List String := ["**/*.pysme", "**/*.py"]
  theme : List (String × PyVal) := []
  plugins : List String := []

/-- Embeds `TailwindConfig.merge` (tailwind.py lines 39-49).  Python's
`list(set(xs))` produces the distinct elements of `xs` in an unspecified
iteration order; the model fixes one deduplication order (`List.dedup`),
and the theorems about `merge` only use membership and duplicate-freeness,
never that order. -/
def TailwindConfig.merge (self other : TailwindConfig) : TailwindConfig :=
  { content := (self.content ++ other.content).dedup
    theme := deep_merge self.theme other.theme
    plugins := (self.plugins ++ other.plugins).dedup }

/-- A Python dict argument for `TailwindConfig.from_dict`, restricted to
well-typed values for the three recognized keys (`none` meaning the key is
absent).  Ill-typed values (for example a number under `content`) would be
passed through Python's `list()` / `dict()` and are outside this model. -/
structure TWDict : Type where
  content : Option (List String) := Option.none
  theme : Option (List (String × PyVal)) := Option.none
  plugins : Option (List String) := Option.none

/-- Embeds `TailwindConfig.from_dict` (tailwind.py lines 51-58): each
recognized key defaults to an empty collection when absent; `list(...)` and
`dict(...)` are shallow copies, the identity in this value model. -/
def TailwindConfig.from_dict (d : TWDict) : TailwindConfig :=
  { content := d.content.getD []
    theme := d.theme.getD []
    plugins := d.plugins.getD [] }

/-- A Python exception value.  `builtin` covers non-taxonomy exceptions
(ValueError, TypeError, ...) identified by class name and message;
`pysme` covers the PySmeError taxonomy of src/pysme/errors.py, identified
by subclass name, with its message, details mapping and optional cause.
Details values are modelled as strings (the claims only compare details
mappings structurally).  Fields with class-constant defaults (code, hint,
status_code, safe) are determined by the subclass name and are not
repeated in the value. -/
inductive PyExc : Type where
  | builtin : String → String → PyExc
  | pysme : String → String → List (String × String) → Option PyExc → PyExc

/-- An exception class object, as passed to `__exit__` as its first
positional argument.  For a PySmeError subclass the class object carries
the class-level default of its `message` dataclass field. -/
inductive PyClass : Type where
  | builtinClass : String → PyClass
  | pysmeClass : String → String → PyClass

/-- The class-level default of the `message` field for each PySmeError
subclass, read off the dataclass definitions in src/pysme/errors.py. -/
def defaultMessageOf (kind : String) : String :=
  if kind = "ConfigError" then "Configuration error"
  else if kind = "ConfigLoadError" then "Failed to load configuration file"
  else if kind = "ConfigValidationError" then "Configuration validation failed"
  else if kind = "BuildError" then "Build/compile error"
  else if kind = "ParserError" then "Parser error"
  else if kind = "PysmeRuntimeError" then "Runtime error in component"
  else if kind = "NotFoundError" then "Not found"
  else if kind = "AuthError" then "Authentication / Authorization error"
  else if kind = "ValidationError" then "Validation error"
  else if kind = "DatabaseError" then "Database error"
  else "An unknown PySme error occurred"

/-- Python's `type(e)` for an exception instance. -/
def typeOfExc : PyExc → PyClass
  | PyExc.builtin t _ => PyClass.builtinClass t
  | PyExc.pysme k _ _ _ => PyClass.pysmeClass k (defaultMessageOf k)

/-- Models `getattr(c, "message", <default>)` on a class object: a
PySmeError subclass exposes the class-level default of its `message`
dataclass field; builtin exception classes have no `message` attribute. -/
def getattrMessage : PyClass → Option String
  | PyClass.builtinClass _ => Option.none
  | PyClass.pysmeClass _ m => some m

/-- Models `str(c)` for an exception class object.  CPython renders
`<class 'module.Name'>`; the model elides the quote characters around the
dotted name (they carry no information the claims depend on). -/
def strOfClass : PyClass → String
  | PyClass.builtinClass n => "<class " ++ n ++ ">"
  | PyClass.pysmeClass n _ => "<class pysme.errors." ++ n ++ ">"

/-- Is this value an instance of `PySmeError`?  True exactly for taxonomy
exception instances; a class object is an instance of `type`, never of
`PySmeError`, so `isinstance` on a class object is always False. -/
def isinstancePySmeError : PyExc → Bool
  | PyExc.pysme _ _ _ _ => true
  | PyExc.builtin _ _ => false

/-- The argument passed to the `cause` field of a taxonomy error under
construction: nothing, an exception instance, or (as happens in the buggy
`wrap_exception.__exit__`) an exception class object. -/
inductive CauseArg : Type where
  | noCause : CauseArg
  | inst : PyExc → CauseArg
  | classObj : PyClass → CauseArg

/-- Embeds construction of a PySmeError subclass (errors.py lines 35-38):
`__post_init__` runs `self.__cause__ = self.cause` whenever `cause` is
truthy, and CPython's `BaseException.__cause__` setter rejects anything
that is not None or an exception instance with
`TypeError: exception cause must be None or derive from BaseException`.
So constructing a taxonomy error with a class object as `cause` raises
that TypeError instead of producing the error value. -/
def mkPySmeError (kind message : String) (details : List (String × String))
    (cause : CauseArg) : Except PyExc PyExc :=
  match cause with
  | CauseArg.noCause => Except.ok (PyExc.pysme kind message details Option.none)
  | CauseArg.inst e => Except.ok (PyExc.pysme kind message details (some e))
  | CauseArg.classObj _ =>
      Except.error
        (PyExc.builtin "TypeError" "exception cause must be None or derive from BaseException")

/-- What propagates out of a `with wrap_exception(...):` block:
`noException` when the protected operation returned normally (and
`__exit__` returned False with nothing active), `propagate e` when
`__exit__` returned False while exception `e` was active (so `e` continues
propagating), and `raises e` when `__exit__` itself raised `e` (which then
replaces the original propagation). -/
inductive ExitOutcome : Type where
  | noException : ExitOutcome
  | propagate : PyExc → ExitOutcome
  | raises : PyExc → ExitOutcome

/-- `isinstance(c, PySmeError)` for a class object `c`: always False,
since a class object is an instance of `type`. -/
def isinstancePySmeErrorClass (_c : PyClass) : Bool := false

/-- The wrapped-error message computed by `wrap_exception.__exit__`
(errors.py line 245): `self.message or getattr(exc_val, "message",
str(exc_val))`.  Because of the swapped parameters (see below) `exc_val`
holds the exception class, so the fallback reads the class-level default
message (for taxonomy classes) or the `str` of the class object (for
builtin exception classes) — never the message of the raised instance. -/
def wrapMessage (message : Option String) (exc_val : PyClass) : String :=
  message.getD ((getattrMessage exc_val).getD (strOfClass exc_val))

/-- Embeds `wrap_exception.__exit__` (errors.py lines 235-249) as invoked
by CPython's `with` statement.  CPython calls
`__exit__(type(e), e, traceback)`; the source declares the parameters in
the order `(exc_val, exc_type, exc_tb)`, so in the body `exc_val` is bound
to the exception CLASS, not the instance.  Consequences modelled here:

  * `exc_val is None` still correctly detects the no-exception case;
  * `isinstance(exc_val, PySmeError)` tests a class object and is always
    False, so the details-merging pass-through branch (lines 238-244) is
    dead code; the model keeps the branch guarded by the always-false
    `isinstancePySmeErrorClass` (were it live, it would mutate a `details`
    attribute on the class object and return False, i.e. `propagate`);
  * the fallback message and the `cause` argument are computed from the
    class object (`wrapMessage`, `CauseArg.classObj`), and constructing
    the wrapper with a class-valued cause raises a TypeError inside
    `__exit__` (see `mkPySmeError`), which replaces the propagation.

`cls` is the target taxonomy subclass name, `message` the optional message
override, `kwargs` the optional `details=` keyword argument (`self.kwargs`
is truthy exactly when a keyword argument was supplied). -/
def wrapExceptionExit (cls : String) (message : Option String)
    (kwargs : Option (List (String × String))) (exc : Option PyExc) : ExitOutcome :=
  match exc with
  | Option.none => ExitOutcome.noException
  | some e =>
      let exc_val : PyClass := typeOfExc e
      if isinstancePySmeErrorClass exc_val then
        ExitOutcome.propagate e
      else
        let msg : String := wrapMessage message exc_val
        match mkPySmeError cls msg (kwargs.getD []) (CauseArg.classObj exc_val) with
        | Except.error te => ExitOutcome.raises te
        | Except.ok wrapped => ExitOutcome.raises wrapped

/-- Embeds the `BuildConfig` dataclass of src/pysme/builder/config.py
(lines 8-20) with its field defaults.  The optimization-level invariant is
NOT part of the type: it is checked only by `__post_init__` at
construction time (see `BuildConfig.construct`), and direct field
assignment (as done by the environment override layer) bypasses it. -/
structure BuildConfig : Type where
  entry_point : String := "pages/index.component.pysme"
  output_dir : String := "dist"
  static_dir : String := "static"
  wasm_target : String := "web"
  optimization_level : String := "release"
  bundle_splitting : Bool := false
  tree_shaking : Bool := false

/-- Embeds `VALID_OPT_LEVELS = {"release", "debug"}` (config.py line 5). -/
def VALID_OPT_LEVELS : List String := ["release", "debug"]

/-- Embeds `BuildConfig(...)` construction including `__post_init__`
(config.py lines 22-27): when the optimization level is not one of the
recognized values, construction raises a builtin `ValueError` (the message
models the f-string, eliding repr quote characters). -/
def BuildConfig.construct (entry_point output_dir static_dir wasm_target
    optimization_level : String) (bundle_splitting tree_shaking : Bool) :
    Except PyExc BuildConfig :=
  if optimization_level ∈ VALID_OPT_LEVELS then
    Except.ok
      { entry_point := entry_point, output_dir := output_dir, static_dir := static_dir
        wasm_target := wasm_target, optimization_level := optimization_level
        bundle_splitting := bundle_splitting, tree_shaking := tree_shaking }
  else
    Except.error
      (PyExc.builtin "ValueError"
        ("Invalid optimization_level=" ++ optimization_level ++
          ". Valid values: release, debug"))

/-- Constructing a `BuildConfig` with all dataclass defaults succeeds and
yields the default record (release is a valid optimization level). -/
theorem construct_defaults_ok :
    BuildConfig.construct "pages/index.component.pysme" "dist" "static" "web"
      "release" false false = Except.ok ({} : BuildConfig) := rfl

/-- A Python dict argument for `BuildConfig.from_dict`, restricted to
well-typed values for the recognized field names (`none` meaning the key
is absent).  `from_dict` silently filters out unrecognized keys, so they
do not appear in the model; ill-typed values (Python performs no type
check on dataclass arguments) are outside this model. -/
structure BCDict : Type where
  entry_point : Option String := Option.none
  output_dir : Option String := Option.none
  static_dir : Option String := Option.none
  wasm_target : Option String := Option.none
  optimization_level : Option String := Option.none
  bundle_splitting : Option Bool := Option.none
  tree_shaking : Option Bool := Option.none

/-- Embeds `BuildConfig.from_dict` (config.py lines 32-36): keys absent
from the dict fall back to the dataclass defaults, and `cls(**filtered)`
runs the same `__post_init__` validation. -/
def BuildConfig.from_dict (d : BCDict) : Except PyExc BuildConfig :=
  BuildConfig.construct (d.entry_point.getD "pages/index.component.pysme")
    (d.output_dir.getD "dist") (d.static_dir.getD "static") (d.wasm_target.getD "web")
    (d.optimization_level.getD "release") (d.bundle_splitting.getD false)
    (d.tree_shaking.getD false)

/-- The process environment: a mapping from variable names to string
values.  `getenv` is `os.getenv`: `none` when the variable is unset. -/
abbrev Env : Type := List (String × String)

/-- Embeds `os.getenv`. -/
def getenv (env : Env) (k : String) : Option String := dictGet env k

/-- The walrus-and-truthiness pattern `if v := os.getenv(KEY):` used
throughout `_apply_env_overrides`: the body runs only when the variable is
set to a non-empty string (an empty string is falsy and is skipped). -/
def envTruthy (o : Option String) : Option String :=
  match o with
  | some v => if v = "" then Option.none else some v
  | Option.none => Option.none

/-- Models Python `str.strip()` with no argument: drop leading and
trailing whitespace. -/
def pyStrip (s : String) : String :=
  String.mk (((s.data.dropWhile Char.isWhitespace).reverse.dropWhile
    Char.isWhitespace).reverse)

/-- Models Python `str.lower()` (character-wise lowercasing, adequate for
the ASCII spellings compared against). -/
def pyLower (s : String) : String := String.mk (s.data.map Char.toLower)

/-- Helper for `pySplitComma`: splits the remaining characters at every
comma, `acc` holding the current segment reversed. -/
def splitCommaAux : List Char → List Char → List String
  | [], acc => [String.mk acc.reverse]
  | c :: rest, acc =>
      if c = ',' then String.mk acc.reverse :: splitCommaAux rest []
      else splitCommaAux rest (c :: acc)

/-- Models Python `s.split(",")` (single-character separator; adjacent
separators yield empty segments, as in Python). -/
def pySplitComma (s : String) : List String := splitCommaAux s.data []

/-- Embeds `_bool_from_env` (config_loader.py lines 27-36): strip and
lowercase, then one of the recognized truthy / falsy spellings; anything
else is treated as absent. -/
def bool_from_env (v : Option String) : Option Bool :=
  match v with
  | Option.none => Option.none
  | some v =>
      let w := pyLower (pyStrip v)
      if w ∈ ["1", "true", "yes", "on"] then some true
      else if w ∈ ["0", "false", "no", "off"] then some false
      else Option.none

/-- Embeds `_list_from_env` (config_loader.py lines 39-42): absent or
empty input is absent; otherwise split on commas, strip each segment and
drop segments that strip to nothing (the result may be the empty list). -/
def list_from_env (v : Option String) : Option (List String) :=
  match v with
  | Option.none => Option.none
  | some v =>
      if v = "" then Option.none
      else some (((pySplitComma v).map pyStrip).filter (fun s => s ≠ ""))

/-- Embeds `_json_from_env` (config_loader.py lines 45-52).  `json.loads`
is a library call; the model takes the parse outcome as the function
parameter `jsonLoads`, where `none` stands for a `json.JSONDecodeError`
(which only logs a warning and yields no override).  JSON documents that
parse to a non-dict value are outside this model. -/
def json_from_env (jsonLoads : String → Option (List (String × PyVal)))
    (v : Option String) : Option (List (String × PyVal)) :=
  match v with
  | Option.none => Option.none
  | some v => if v = "" then Option.none else jsonLoads v

/-- One string-variable override step of `_apply_env_overrides`:
`if v := os.getenv(key): <field> = v`. -/
def strOverride (env : Env) (key : String) (old : String) : String :=
  match envTruthy (getenv env key) with
  | some v => v
  | Option.none => old

/-- One boolean-variable override step of `_apply_env_overrides`:
`if v := os.getenv(key): b = _bool_from_env(v); if b is not None: <field> = b`. -/
def boolOverride (env : Env) (key : String) (old : Bool) : Bool :=
  match envTruthy (getenv env key) with
  | some v =>
      match bool_from_env (some v) with
      | some b => b
      | Option.none => old
  | Option.none => old

/-- One list-variable override step of `_apply_env_overrides`. -/
def listOverride (env : Env) (key : String) (old : List String) : List String :=
  match envTruthy (getenv env key) with
  | some v =>
      match list_from_env (some v) with
      | some l => l
      | Option.none => old
  | Option.none => old

/-- The JSON theme override step of `_apply_env_overrides`: on success the
environment value REPLACES the theme tree wholesale (no deep merge). -/
def themeOverride (jsonLoads : String → Option (List (String × PyVal)))
    (env : Env) (key : String) (old : List (String × PyVal)) : List (String × PyVal) :=
  match envTruthy (getenv env key) with
  | some v =>
      match json_from_env jsonLoads (some v) with
      | some t => t
      | Option.none => old
  | Option.none => old

/-- Embeds `_apply_env_overrides` (config_loader.py lines 55-87).  The
Python function mutates `build` and `tailwind` in place, one recognized
variable after the other, each applied only when present (truthy) and
parseable; the model returns the updated pair.  Each `let` line models one
`if v := os.getenv(...)` statement, in source order. -/
def apply_env_overrides (jsonLoads : String → Option (List (String × PyVal)))
    (env : Env) (build : BuildConfig) (tailwind : TailwindConfig) :
    BuildConfig × TailwindConfig :=
  let build := { build with entry_point := strOverride env "PYSME_ENTRY_POINT" build.entry_point }
  let build := { build with output_dir := strOverride env "PYSME_OUTPUT_DIR" build.output_dir }
  let build := { build with static_dir := strOverride env "PYSME_STATIC_DIR" build.static_dir }
  let build := { build with wasm_target := strOverride env "PYSME_WASM_TARGET" build.wasm_target }
  let build := { build with
    optimization_level := strOverride env "PYSME_OPT_LEVEL" build.optimization_level }
  let build := { build with
    bundle_splitting := boolOverride env "PYSME_BUNDLE_SPLITTING" build.bundle_splitting }
  let build := { build with
    tree_shaking := boolOverride env "PYSME_TREE_SHAKING" build.tree_shaking }
  let tailwind := { tailwind with
    content := listOverride env "PYSME_TAILWIND_CONTENT" tailwind.content }
  let tailwind := { tailwind with
    theme := themeOverride jsonLoads env "PYSME_TAILWIND_THEME" tailwind.theme }
  let tailwind := { tailwind with
    plugins := listOverride env "PYSME_TAILWIND_PLUGINS" tailwind.plugins }
  (build, tailwind)

/-- The fields of the resolved build configuration, written out. -/
theorem apply_env_overrides_build (jsonLoads : String → Option (List (String × PyVal)))
    (env : Env) (b : BuildConfig) (t : TailwindConfig) :
    (apply_env_overrides jsonLoads env b t).1 =
      { entry_point := strOverride env "PYSME_ENTRY_POINT" b.entry_point
        output_dir := strOverride env "PYSME_OUTPUT_DIR" b.output_dir
        static_dir := strOverride env "PYSME_STATIC_DIR" b.static_dir
        wasm_target := strOverride env "PYSME_WASM_TARGET" b.wasm_target
        optimization_level := strOverride env "PYSME_OPT_LEVEL" b.optimization_level
        bundle_splitting := boolOverride env "PYSME_BUNDLE_SPLITTING" b.bundle_splitting
        tree_shaking := boolOverride env "PYSME_TREE_SHAKING" b.tree_shaking } := rfl

/-- The fields of the resolved tailwind configuration, written out. -/
theorem apply_env_overrides_tailwind (jsonLoads : String → Option (List (String × PyVal)))
    (env : Env) (b : BuildConfig) (t : TailwindConfig) :
    (apply_env_overrides jsonLoads env b t).2 =
      { content := listOverride env "PYSME_TAILWIND_CONTENT" t.content
        theme := themeOverride jsonLoads env "PYSME_TAILWIND_THEME" t.theme
        plugins := listOverride env "PYSME_TAILWIND_PLUGINS" t.plugins } := rfl

/-- Python truthiness `bool(x)` for the modelled values (used on the
config script's `debug` variable). -/
def pyTruthy : PyVal → Bool
  | PyVal.str s => !(s = "")
  | PyVal.int i => !(i = 0)
  | PyVal.bool b => b
  | PyVal.none => false
  | PyVal.list [] => false
  | PyVal.list (_ :: _) => true
  | PyVal.dict [] => false
  | PyVal.dict (_ :: _) => true

/-- The value the config script binds to `build_config`, as the loader
classifies it (config_loader.py lines 136-144): absent, a `BuildConfig`
instance, a dict, or any other type (which is a fatal TypeError). -/
inductive BCVar : Type where
  | absent : BCVar
  | inst : BuildConfig → BCVar
  | dict : BCDict → BCVar
  | other : BCVar

/-- The value the config script binds to `tailwind_config`
(config_loader.py lines 146-156). -/
inductive TWVar : Type where
  | absent : TWVar
  | inst : TailwindConfig → TWVar
  | dict : TWDict → TWVar
  | other : TWVar

/-- The observable result of executing the user config script in a fresh
namespace: the three recognized top-level bindings, plus the captured
non-underscore bindings (`raw_vars`, config_loader.py line 133). -/
structure ConfigScript : Type where
  build_config : BCVar
  tailwind_config : TWVar
  debug : Option PyVal
  raw : List (String × PyVal)

/-- How far the script-loading front end of `load_pysme_config` gets:
the file is missing, `spec_from_file_location` yields no usable loader,
`exec_module` raises an `Exception`, or execution succeeds and produces a
namespace. -/
inductive ScriptOutcome : Type where
  | missing : ScriptOutcome
  | specFailed : ScriptOutcome
  | execError : ScriptOutcome
  | ok : ConfigScript → ScriptOutcome

/-- Embeds the `LoadedConfigs` dataclass (config_loader.py lines 20-24). -/
structure LoadedConfigs : Type where
  build : BuildConfig
  tailwind : TailwindConfig
  raw : Option (List (String × PyVal)) := Option.none

/-- Embeds `_make_defaults` (config_loader.py lines 90-91): default
`BuildConfig()` and `TailwindConfig()` and an empty raw dict. -/
def make_defaults : LoadedConfigs :=
  { build := {}, tailwind := {}, raw := some [] }

/-- A resolution result together with the observable logging side effect:
`loggingCall = none` means `configure_logging` was never called on this
path; `some arg` means it was called once with `debug=arg`. -/
structure Resolution : Type where
  configs : LoadedConfigs
  loggingCall : Option (Option Bool)

/-- The `build_config` extraction chain of `load_pysme_config`
(config_loader.py lines 136-144): an instance is used as-is, a dict goes
through `from_dict`, absence constructs `BuildConfig()`, and any other
type raises a TypeError. -/
def extractBuild : BCVar → Except PyExc BuildConfig
  | BCVar.inst b => Except.ok b
  | BCVar.dict d => BuildConfig.from_dict d
  | BCVar.absent => BuildConfig.construct "pages/index.component.pysme" "dist"
      "static" "web" "release" false false
  | BCVar.other => Except.error (PyExc.builtin "TypeError"
      "build_config in pysme.config.py must be BuildConfig or dict")

/-- The `tailwind_config` extraction chain of `load_pysme_config`
(config_loader.py lines 146-156). -/
def extractTailwind : TWVar → Except PyExc TailwindConfig
  | TWVar.inst t => Except.ok t
  | TWVar.dict d => Except.ok (TailwindConfig.from_dict d)
  | TWVar.absent => Except.ok ({} : TailwindConfig)
  | TWVar.other => Except.error (PyExc.builtin "TypeError"
      "tailwind_config in pysme.config.py must be TailwindConfig or dict")

/-- Embeds `load_pysme_config` (config_loader.py lines 94-173) over a
script outcome.  Faithful points, in source order:

  * missing file: defaults, env overrides when `apply_env`, then
    `configure_logging()` with no debug argument, and return — no error;
  * unusable import spec or a raising `exec_module`: log and return
    `_make_defaults()` immediately — no env overrides, no
    `configure_logging` call (a `BaseException` that is not an `Exception`
    would escape `except Exception` and is outside this model);
  * a `build_config` / `tailwind_config` binding of the wrong type raises
    a builtin TypeError to the caller;
  * env overrides are applied after extraction when `apply_env`;
  * the debug flag: the script binding wins when present, otherwise
    `_bool_from_env(os.getenv("PYSME_DEBUG"))` when that parses; the
    logging call receives `bool(debug_flag)` or no argument — the
    surrounding `try/except` falls back to `configure_logging()`, a
    non-raising path collapsed into the same call here. -/
def load_pysme_config (jsonLoads : String → Option (List (String × PyVal)))
    (env : Env) (outcome : ScriptOutcome) (apply_env : Bool) :
    Except PyExc Resolution :=
  match outcome with
  | ScriptOutcome.missing =>
      let cfgs := make_defaults
      let bt := if apply_env then apply_env_overrides jsonLoads env cfgs.build cfgs.tailwind
                else (cfgs.build, cfgs.tailwind)
      Except.ok
        { configs := { build := bt.1, tailwind := bt.2, raw := cfgs.raw }
          loggingCall := some Option.none }
  | ScriptOutcome.specFailed =>
      Except.ok { configs := make_defaults, loggingCall := Option.none }
  | ScriptOutcome.execError =>
      Except.ok { configs := make_defaults, loggingCall := Option.none }
  | ScriptOutcome.ok s =>
      match extractBuild s.build_config with
      | Except.error err => Except.error err
      | Except.ok build_conf =>
      match extractTailwind s.tailwind_config with
      | Except.error err => Except.error err
      | Except.ok tailwind_conf =>
      let bt := if apply_env then apply_env_overrides jsonLoads env build_conf tailwind_conf
                else (build_conf, tailwind_conf)
      let debug_flag : Option PyVal :=
        match s.debug with
        | some v => some v
        | Option.none => (bool_from_env (getenv env "PYSME_DEBUG")).map PyVal.bool
      Except.ok
        { configs := { build := bt.1, tailwind := bt.2, raw := some s.raw }
          loggingCall := some (debug_flag.map pyTruthy) }

/-! ### Identity-labelled model of the theme trees

The pure value model above cannot talk about Python object identity, so
the no-aliasing claim about `TailwindConfig.merge` is settled on a second
embedding in which every MUTABLE node (list, dict) carries the integer
identity of the Python object holding it; strings, numbers, booleans and
None are immutable and carry no identity.  `deepcopy` allocates fresh
identities from a counter; two structures can alias (mutation of one
visible through the other) only if they share an identity. -/

mutual
inductive LVal : Type where
  | str : String → LVal
  | int : Int → LVal
  | bool : Bool → LVal
  | none : LVal
  | list : Nat → LSeq → LVal
  | dict : Nat → LEntries → LVal
inductive LSeq : Type where
  | nil : LSeq
  | cons : LVal → LSeq → LSeq
inductive LEntries : Type where
  | nil : LEntries
  | cons : String → LVal → LEntries → LEntries
end

mutual
/-- All object identities occurring in a labelled value. -/
def idsOf : LVal → List Nat
  | LVal.str _ => []
  | LVal.int _ => []
  | LVal.bool _ => []
  | LVal.none => []
  | LVal.list j xs => j :: idsOfSeq xs
  | LVal.dict j es => j :: idsOfEntries es
def idsOfSeq : LSeq → List Nat
  | LSeq.nil => []
  | LSeq.cons v vs => idsOf v ++ idsOfSeq vs
def idsOfEntries : LEntries → List Nat
  | LEntries.nil => []
  | LEntries.cons _ v es => idsOf v ++ idsOfEntries es
end

/-- Python dict lookup on labelled entries (same semantics as `dictGet`). -/
def dgetE : LEntries → String → Option LVal
  | LEntries.nil, _ => Option.none
  | LEntries.cons k1 v1 rest, k => if k1 = k then some v1 else dgetE rest k

/-- Python dict assignment on labelled entries (same semantics as
`dictSet`). -/
def dsetE : LEntries → String → LVal → LEntries
  | LEntries.nil, k, v => LEntries.cons k v LEntries.nil
  | LEntries.cons k1 v1 rest, k, v =>
      if k1 = k then LEntries.cons k v rest else LEntries.cons k1 v1 (dsetE rest k v)

mutual
/-- Models `copy.deepcopy` on a labelled value: the same value with every
mutable node relabelled by a fresh identity drawn from the counter.
Immutable atoms are returned as-is (CPython's deepcopy does not copy
them).  The exact order in which fresh identities are drawn is
irrelevant; only their freshness is used. -/
def deepcopyL : LVal → Nat → LVal × Nat
  | LVal.str s, n => (LVal.str s, n)
  | LVal.int i, n => (LVal.int i, n)
  | LVal.bool b, n => (LVal.bool b, n)
  | LVal.none, n => (LVal.none, n)
  | LVal.list _ xs, n =>
      let p := deepcopySeq xs n
      (LVal.list p.2 p.1, p.2 + 1)
  | LVal.dict _ es, n =>
      let p := deepcopyEntries es n
      (LVal.dict p.2 p.1, p.2 + 1)
def deepcopySeq : LSeq → Nat → LSeq × Nat
  | LSeq.nil, n => (LSeq.nil, n)
  | LSeq.cons v vs, n =>
      let p := deepcopyL v n
      let q := deepcopySeq vs p.2
      (LSeq.cons p.1 q.1, q.2)
def deepcopyEntries : LEntries → Nat → LEntries × Nat
  | LEntries.nil, n => (LEntries.nil, n)
  | LEntries.cons k v es, n =>
      let p := deepcopyL v n
      let q := deepcopyEntries es p.2
      (LEntries.cons k p.1 q.1, q.2)
end

mutual
/-- Labelled embedding of `deep_merge` (tailwind.py lines 16-30): the
returned triple is (identity of the fresh result dict created by
`deepcopy(a)`, its entries after the merge loop, next counter). -/
def deepMergeLGo (a b : LEntries) (n : Nat) : Nat × LEntries × Nat :=
  let p := deepcopyEntries a n
  let q := deepMergeLLoop p.1 b (p.2 + 1)
  (p.2, q.1, q.2)
termination_by (sizeOf b, 2)
decreasing_by
  all_goals omega
/-- The `for k, v in b.items():` loop of `deep_merge`, on the labelled
model: each iteration stores `mergeStepL` of the present value and `v`
at key `k`. -/
def deepMergeLLoop : LEntries → LEntries → Nat → LEntries × Nat
  | result, LEntries.nil, n => (result, n)
  | result, LEntries.cons k v rest, n =>
      let p := mergeStepL (dgetE result k) v n
      deepMergeLLoop (dsetE result k p.1) rest p.2
termination_by _result b _n => (sizeOf b, 1)
decreasing_by
  all_goals simp_wf
  all_goals omega
/-- The body of one loop iteration of `deep_merge`: when the key is
present in `result` and both sides hold dicts, the recursive merge
(whose fresh dict gets the identity returned by `deepMergeLGo`);
otherwise `deepcopy(v)`. -/
def mergeStepL (rv : Option LVal) (v : LVal) (n : Nat) : LVal × Nat :=
  match rv, v with
  | some (LVal.dict _ ra), LVal.dict _ vb =>
      let m := deepMergeLGo ra vb n
      (LVal.dict m.1 m.2.1, m.2.2)
  | _, _ => deepcopyL v n
termination_by (sizeOf v, 0)
decreasing_by
  all_goals simp_wf
  all_goals omega
end

/-- Labelled counterpart of `TailwindConfig`, keeping the identity of the
theme dict object alongside its entries.  The `content` and `plugins`
lists hold immutable strings; the fresh lists built by `list(set(...))`
share no mutable structure by construction, so their list identities are
not tracked. -/
structure TailwindConfigL : Type where
  content : List String
  themeId : Nat
  theme : LEntries
  plugins : List String

/-- Labelled embedding of `TailwindConfig.merge` (tailwind.py lines
39-49), threading the identity counter through `deep_merge`. -/
def TailwindConfigL.merge (self other : TailwindConfigL) (n : Nat) :
    TailwindConfigL × Nat :=
  let m := deepMergeLGo self.theme other.theme n
  ({ content := (self.content ++ other.content).dedup
     themeId := m.1
     theme := m.2.1
     plugins := (self.plugins ++ other.plugins).dedup }, m.2.2)

/-- The identities of all mutable nodes of a theme tree, including the
theme dict object itself. -/
def treeIds (c : TailwindConfigL) : List Nat := c.themeId :: idsOfEntries c.theme

theorem idsOf_mem_dsetE (es : LEntries) (k : String) (v : LVal) (i : Nat)
    (h : i ∈ idsOfEntries (dsetE es k v)) :
    i ∈ idsOfEntries es ∨ i ∈ idsOf v := by
  cases es with
  | nil =>
      simp only [dsetE, idsOfEntries, List.append_nil] at h
      exact Or.inr h
  | cons k1 v1 rest =>
      by_cases hk : k1 = k
      · simp only [dsetE, hk, if_true, idsOfEntries, List.mem_append] at h
        rcases h with h | h
        · exact Or.inr h
        · exact Or.inl (by simp [idsOfEntries, h])
      · simp only [dsetE, hk, if_false, idsOfEntries, List.mem_append] at h
        rcases h with h | h
        · exact Or.inl (by simp [idsOfEntries, h])
        · rcases idsOf_mem_dsetE rest k v i h with h2 | h2
          · exact Or.inl (by simp [idsOfEntries, h2])
          · exact Or.inr h2

mutual
/-- Freshness of `deepcopy` on a labelled value: the counter never
decreases and every identity in the copy is at least the initial
counter. -/
theorem deepcopyL_fresh (v : LVal) (n : Nat) :
    n ≤ (deepcopyL v n).2 ∧ ∀ i, i ∈ idsOf (deepcopyL v n).1 → n ≤ i := by
  cases v with
  | str s => exact ⟨Nat.le_refl n, by simp [deepcopyL, idsOf]⟩
  | int i => exact ⟨Nat.le_refl n, by simp [deepcopyL, idsOf]⟩
  | bool b => exact ⟨Nat.le_refl n, by simp [deepcopyL, idsOf]⟩
  | none => exact ⟨Nat.le_refl n, by simp [deepcopyL, idsOf]⟩
  | list j xs =>
      have h := deepcopySeq_fresh xs n
      refine ⟨by simp only [deepcopyL]; omega, ?_⟩
      intro i hi
      simp only [deepcopyL, idsOf, List.mem_cons] at hi
      rcases hi with hi | hi
      · omega
      · exact h.2 i hi
  | dict j es =>
      have h := deepcopyEntries_fresh es n
      refine ⟨by simp only [deepcopyL]; omega, ?_⟩
      intro i hi
      simp only [deepcopyL, idsOf, List.mem_cons] at hi
      rcases hi with hi | hi
      · omega
      · exact h.2 i hi
theorem deepcopySeq_fresh (xs : LSeq) (n : Nat) :
    n ≤ (deepcopySeq xs n).2 ∧ ∀ i, i ∈ idsOfSeq (deepcopySeq xs n).1 → n ≤ i := by
  cases xs with
  | nil => exact ⟨Nat.le_refl n, by simp [deepcopySeq, idsOfSeq]⟩
  | cons v vs =>
      have h1 := deepcopyL_fresh v n
      have h2 := deepcopySeq_fresh vs (deepcopyL v n).2
      refine ⟨by simp only [deepcopySeq]; omega, ?_⟩
      intro i hi
      simp only [deepcopySeq, idsOfSeq, List.mem_append] at hi
      rcases hi with hi | hi
      · exact h1.2 i hi
      · exact Nat.le_trans h1.1 (h2.2 i hi)
theorem deepcopyEntries_fresh (es : LEntries) (n : Nat) :
    n ≤ (deepcopyEntries es n).2 ∧
      ∀ i, i ∈ idsOfEntries (deepcopyEntries es n).1 → n ≤ i := by
  cases es with
  | nil => exact ⟨Nat.le_refl n, by simp [deepcopyEntries, idsOfEntries]⟩
  | cons k v rest =>
      have h1 := deepcopyL_fresh v n
      have h2 := deepcopyEntries_fresh rest (deepcopyL v n).2
      refine ⟨by simp only [deepcopyEntries]; omega, ?_⟩
      intro i hi
      simp only [deepcopyEntries, idsOfEntries, List.mem_append] at hi
      rcases hi with hi | hi
      · exact h1.2 i hi
      · exact Nat.le_trans h1.1 (h2.2 i hi)
end

mutual
/-- Freshness of the labelled `deep_merge`: the resulting dict identity
and every identity inside its entries are at least the initial counter
(everything the merge returns was freshly allocated by it), and the
counter never decreases. -/
theorem deepMergeLGo_fresh (a b : LEntries) (n : Nat) :
    n ≤ (deepMergeLGo a b n).2.2 ∧ n ≤ (deepMergeLGo a b n).1 ∧
      ∀ i, i ∈ idsOfEntries (deepMergeLGo a b n).2.1 → n ≤ i := by
  have hc := deepcopyEntries_fresh a n
  have hl := deepMergeLLoop_fresh n (deepcopyEntries a n).1 b
    ((deepcopyEntries a n).2 + 1) hc.2 (by omega)
  refine ⟨?_, ?_, ?_⟩
  · simp only [deepMergeLGo]
    omega
  · simp only [deepMergeLGo]
    omega
  · intro i hi
    simp only [deepMergeLGo] at hi
    exact hl.2 i hi
termination_by (sizeOf b, 2)
/-- Invariant of the merge loop: if every identity already in `result` is
at least `m` and the counter is at least `m`, then every identity in the
final entries is at least `m`, and the counter never decreases. -/
theorem deepMergeLLoop_fresh (m : Nat) (result b : LEntries) (n : Nat)
    (hres : ∀ i, i ∈ idsOfEntries result → m ≤ i) (hn : m ≤ n) :
    n ≤ (deepMergeLLoop result b n).2 ∧
      ∀ i, i ∈ idsOfEntries (deepMergeLLoop result b n).1 → m ≤ i := by
  cases b with
  | nil =>
      refine ⟨by simp [deepMergeLLoop], ?_⟩
      simpa only [deepMergeLLoop] using hres
  | cons k v rest =>
      have hstep := mergeStepL_fresh (dgetE result k) v n
      have hrec := deepMergeLLoop_fresh m
        (dsetE result k (mergeStepL (dgetE result k) v n).1) rest
        (mergeStepL (dgetE result k) v n).2
        (fun i hi => by
          rcases idsOf_mem_dsetE _ _ _ _ hi with h2 | h2
          · exact hres i h2
          · exact Nat.le_trans hn (hstep.2 i h2))
        (Nat.le_trans hn hstep.1)
      exact ⟨by simp only [deepMergeLLoop]; omega,
        by simpa only [deepMergeLLoop] using hrec.2⟩
termination_by (sizeOf b, 1)
/-- Freshness of one loop-body step: the stored value only carries
identities at least the initial counter, and the counter never
decreases. -/
theorem mergeStepL_fresh (rv : Option LVal) (v : LVal) (n : Nat) :
    n ≤ (mergeStepL rv v n).2 ∧ ∀ i, i ∈ idsOf (mergeStepL rv v n).1 → n ≤ i := by
  rcases rv with _ | rv
  · cases v with
    | str s => simpa only [mergeStepL] using deepcopyL_fresh (LVal.str s) n
    | int j => simpa only [mergeStepL] using deepcopyL_fresh (LVal.int j) n
    | bool c => simpa only [mergeStepL] using deepcopyL_fresh (LVal.bool c) n
    | none => simpa only [mergeStepL] using deepcopyL_fresh LVal.none n
    | list j xs => simpa only [mergeStepL] using deepcopyL_fresh (LVal.list j xs) n
    | dict j es => simpa only [mergeStepL] using deepcopyL_fresh (LVal.dict j es) n
  · cases rv with
    | dict x ra =>
        cases v with
        | str s => simpa only [mergeStepL] using deepcopyL_fresh (LVal.str s) n
        | int j => simpa only [mergeStepL] using deepcopyL_fresh (LVal.int j) n
        | bool c => simpa only [mergeStepL] using deepcopyL_fresh (LVal.bool c) n
        | none => simpa only [mergeStepL] using deepcopyL_fresh LVal.none n
        | list j xs => simpa only [mergeStepL] using deepcopyL_fresh (LVal.list j xs) n
        | dict y vb =>
            have hg := deepMergeLGo_fresh ra vb n
            refine ⟨by simp only [mergeStepL]; omega, ?_⟩
            intro i hi
            simp only [mergeStepL, idsOf, List.mem_cons] at hi
            rcases hi with hi | hi
            · omega
            · exact hg.2.2 i hi
    | str s =>
        cases v <;> simpa only [mergeStepL] using deepcopyL_fresh _ n
    | int j =>
        cases v <;> simpa only [mergeStepL] using deepcopyL_fresh _ n
    | bool c =>
        cases v <;> simpa only [mergeStepL] using deepcopyL_fresh _ n
    | none =>
        cases v <;> simpa only [mergeStepL] using deepcopyL_fresh _ n
    | list x xs =>
        cases v <;> simpa only [mergeStepL] using deepcopyL_fresh _ n
termination_by (sizeOf v, 0)
end

/-! ### Claim theorems -/

/-- C1: the claim says a taxonomy (PySmeError) failure inside a
`wrap_exception` scope keeps propagating unchanged (details merged, no
re-wrapping).  The code violates this: `__exit__` declares its parameters
as `(exc_val, exc_type, exc_tb)` while CPython passes `(type, value,
traceback)`, so `exc_val` holds the exception class, the
`isinstance(exc_val, PySmeError)` branch never fires, and the attempt to
wrap — with the class object as `cause` — raises a TypeError from
`__post_init__`.  Evaluated here on a `ConfigValidationError` raised
inside `wrap_exception(ConfigLoadError)`: what propagates is a new
TypeError, not the original error. -/
theorem C1_wrap_rewraps_taxonomy_error :
    wrapExceptionExit "ConfigLoadError" Option.none Option.none
        (some (PyExc.pysme "ConfigValidationError" "bad config" [] Option.none)) =
      ExitOutcome.raises (PyExc.builtin "TypeError"
        "exception cause must be None or derive from BaseException") ∧
    wrapExceptionExit "ConfigLoadError" Option.none Option.none
        (some (PyExc.pysme "ConfigValidationError" "bad config" [] Option.none)) ≠
      ExitOutcome.propagate
        (PyExc.pysme "ConfigValidationError" "bad config" [] Option.none) := by
  refine ⟨rfl, ?_⟩
  intro h
  exact ExitOutcome.noConfusion h

/-- C2: the claim says a non-taxonomy failure `e` is replaced by a new
error of class `kind` whose message falls back to the message of `e` and
whose cause records `e` itself.  The code violates this through the same
parameter swap: the fallback message is computed from the exception CLASS
(yielding the class string, not the message "boom" of the instance), and
the class object is passed as `cause`, which makes the wrapper
construction itself raise a TypeError — the propagating failure is that
TypeError, not the described wrapper. -/
theorem C2_wrap_nontaxonomy_diverges :
    wrapExceptionExit "ConfigLoadError" Option.none Option.none
        (some (PyExc.builtin "ValueError" "boom")) =
      ExitOutcome.raises (PyExc.builtin "TypeError"
        "exception cause must be None or derive from BaseException") ∧
    wrapMessage Option.none (typeOfExc (PyExc.builtin "ValueError" "boom")) =
      "<class ValueError>" ∧
    ("<class ValueError>" : String) ≠ "boom" := by
  refine ⟨rfl, rfl, ?_⟩
  decide

/-- C3 counterexample: constructing a BuildConfig with optimization level
"fastest" does fail, but with a builtin `ValueError`, which is not an
instance of the PySmeError taxonomy at all — in particular not a
`ConfigValidationError` as the claim states. -/
theorem C3_counterexample_value_error :
    BuildConfig.construct "pages/index.component.pysme" "dist" "static" "web"
        "fastest" false false =
      Except.error (PyExc.builtin "ValueError"
        "Invalid optimization_level=fastest. Valid values: release, debug") ∧
    isinstancePySmeError (PyExc.builtin "ValueError"
        "Invalid optimization_level=fastest. Valid values: release, debug") = false :=
  ⟨rfl, rfl⟩

/-- C3 amended: for every string s, BuildConfig construction succeeds
exactly when s is "release" or "debug", and for any other s it fails with
a builtin ValueError (not with a taxonomy ConfigValidationError). -/
theorem C3_opt_level_validation (s e o st w : String) (bs ts : Bool) :
    (s ∈ VALID_OPT_LEVELS →
      BuildConfig.construct e o st w s bs ts = Except.ok
        { entry_point := e, output_dir := o, static_dir := st, wasm_target := w
          optimization_level := s, bundle_splitting := bs, tree_shaking := ts }) ∧
    (s ∉ VALID_OPT_LEVELS →
      BuildConfig.construct e o st w s bs ts = Except.error
        (PyExc.builtin "ValueError"
          ("Invalid optimization_level=" ++ s ++ ". Valid values: release, debug"))) ∧
    VALID_OPT_LEVELS = ["release", "debug"] := by
  refine ⟨?_, ?_, rfl⟩
  · intro h
    simp [BuildConfig.construct, h]
  · intro h
    simp [BuildConfig.construct, h]

/-- Witness for C3: both branches exercised at concrete inputs. -/
theorem C3_opt_level_validation_witness :
    ("release" ∈ VALID_OPT_LEVELS ∧
      BuildConfig.construct "e" "o" "s" "w" "release" true false = Except.ok
        { entry_point := "e", output_dir := "o", static_dir := "s", wasm_target := "w"
          optimization_level := "release", bundle_splitting := true, tree_shaking := false }) ∧
    ("fastest" ∉ VALID_OPT_LEVELS ∧
      BuildConfig.construct "e" "o" "s" "w" "fastest" true false = Except.error
        (PyExc.builtin "ValueError"
          "Invalid optimization_level=fastest. Valid values: release, debug")) :=
  ⟨⟨by decide, (C3_opt_level_validation "release" "e" "o" "s" "w" true false).1 (by decide)⟩,
   ⟨by decide, (C3_opt_level_validation "fastest" "e" "o" "s" "w" true false).2.1 (by decide)⟩⟩

/-- C4: `TailwindConfig.merge` (the spec's ThemeConfig.Merge) returns a
config whose content and plugins are the deduplicated unions of the
respective operand collections (characterized order-independently by
membership plus duplicate-freeness), and whose theme tree is the deep
merge of the operand trees, where each key follows the conflict rule:
both values mappings → recursive merge, otherwise the right side wins
outright (and the merge is total — no type-mismatch error, no list
concatenation, as `mergeLookup` prescribes the right value verbatim for
every non-dict/dict combination).  The hypothesis that the keys of the
right theme dict are distinct always holds for a Python dict. -/
theorem C4_merge_spec (a b : TailwindConfig) (hb : (dictKeys b.theme).Nodup) :
    (a.merge b).content.Nodup ∧
    (∀ x, x ∈ (a.merge b).content ↔ x ∈ a.content ∨ x ∈ b.content) ∧
    (a.merge b).plugins.Nodup ∧
    (∀ x, x ∈ (a.merge b).plugins ↔ x ∈ a.plugins ∨ x ∈ b.plugins) ∧
    (a.merge b).theme = deep_merge a.theme b.theme ∧
    (∀ q, dictGet (a.merge b).theme q =
      mergeLookup (dictGet a.theme q) (dictGet b.theme q)) := by
  refine ⟨?_, ?_, ?_, ?_, rfl, ?_⟩
  · exact List.nodup_dedup _
  · intro x
    simp [TailwindConfig.merge, List.mem_dedup]
  · exact List.nodup_dedup _
  · intro x
    simp [TailwindConfig.merge, List.mem_dedup]
  · intro q
    exact deep_merge_lookup a.theme b.theme hb q

/-- Witness for C4 at concrete configs with an overlapping scalar key, an
overlapping nested-mapping key and disjoint keys. -/
theorem C4_merge_spec_witness :
    (dictKeys (TailwindConfig.mk ["y", "z"]
        [("extend", PyVal.dict [("b", PyVal.int 2)]), ("n", PyVal.str "right")]
        ["p", "q"]).theme).Nodup ∧
    ((TailwindConfig.mk ["x", "y"]
        [("extend", PyVal.dict [("a", PyVal.int 1)]), ("n", PyVal.str "left")]
        ["p"]).merge
      (TailwindConfig.mk ["y", "z"]
        [("extend", PyVal.dict [("b", PyVal.int 2)]), ("n", PyVal.str "right")]
        ["p", "q"])).content.Nodup ∧
    (∀ x, x ∈ ((TailwindConfig.mk ["x", "y"]
        [("extend", PyVal.dict [("a", PyVal.int 1)]), ("n", PyVal.str "left")]
        ["p"]).merge
      (TailwindConfig.mk ["y", "z"]
        [("extend", PyVal.dict [("b", PyVal.int 2)]), ("n", PyVal.str "right")]
        ["p", "q"])).content ↔ x ∈ ["x", "y"] ∨ x ∈ ["y", "z"]) ∧
    ((TailwindConfig.mk ["x", "y"]
        [("extend", PyVal.dict [("a", PyVal.int 1)]), ("n", PyVal.str "left")]
        ["p"]).merge
      (TailwindConfig.mk ["y", "z"]
        [("extend", PyVal.dict [("b", PyVal.int 2)]), ("n", PyVal.str "right")]
        ["p", "q"])).plugins.Nodup ∧
    (∀ x, x ∈ ((TailwindConfig.mk ["x", "y"]
        [("extend", PyVal.dict [("a", PyVal.int 1)]), ("n", PyVal.str "left")]
        ["p"]).merge
      (TailwindConfig.mk ["y", "z"]
        [("extend", PyVal.dict [("b", PyVal.int 2)]), ("n", PyVal.str "right")]
        ["p", "q"])).plugins ↔ x ∈ ["p"] ∨ x ∈ ["p", "q"]) ∧
    ((TailwindConfig.mk ["x", "y"]
        [("extend", PyVal.dict [("a", PyVal.int 1)]), ("n", PyVal.str "left")]
        ["p"]).merge
      (TailwindConfig.mk ["y", "z"]
        [("extend", PyVal.dict [("b", PyVal.int 2)]), ("n", PyVal.str "right")]
        ["p", "q"])).theme =
      deep_merge [("extend", PyVal.dict [("a", PyVal.int 1)]), ("n", PyVal.str "left")]
        [("extend", PyVal.dict [("b", PyVal.int 2)]), ("n", PyVal.str "right")] ∧
    (∀ q, dictGet ((TailwindConfig.mk ["x", "y"]
        [("extend", PyVal.dict [("a", PyVal.int 1)]), ("n", PyVal.str "left")]
        ["p"]).merge
      (TailwindConfig.mk ["y", "z"]
        [("extend", PyVal.dict [("b", PyVal.int 2)]), ("n", PyVal.str "right")]
        ["p", "q"])).theme q =
      mergeLookup
        (dictGet [("extend", PyVal.dict [("a", PyVal.int 1)]), ("n", PyVal.str "left")] q)
        (dictGet [("extend", PyVal.dict [("b", PyVal.int 2)]), ("n", PyVal.str "right")] q)) := by
  have h := C4_merge_spec
    (TailwindConfig.mk ["x", "y"]
      [("extend", PyVal.dict [("a", PyVal.int 1)]), ("n", PyVal.str "left")] ["p"])
    (TailwindConfig.mk ["y", "z"]
      [("extend", PyVal.dict [("b", PyVal.int 2)]), ("n", PyVal.str "right")] ["p", "q"])
    (by decide)
  exact ⟨by decide, h.1, h.2.1, h.2.2.1, h.2.2.2.1, h.2.2.2.2.1, h.2.2.2.2.2⟩

/-- C5: purity and no-aliasing of the merge, settled on the
identity-labelled embedding.  In that model `TailwindConfigL.merge` is a
pure function of its operands — matching the source, whose only writes
target the dict freshly created by `deepcopy` inside `deep_merge`, so
neither operand is mutated — and this theorem states the aliasing half:
provided the counter `n` is beyond every identity of both operand theme
trees (always arrangeable, since identities in a run are distinct from the
fresh ones a later allocation produces), every mutable node of the merged
theme tree, including the theme dict itself, is an object distinct from
every mutable node of either operand tree.  Hence mutating the nested
theme tree of the result cannot affect either original, and the operand
trees are left exactly as they were.  Content and plugin lists hold only
immutable strings and are rebuilt by `list(set(...))`. -/
theorem C5_merge_no_aliasing (a b : TailwindConfigL) (n : Nat)
    (ha : ∀ i, i ∈ treeIds a → i < n) (hb : ∀ i, i ∈ treeIds b → i < n) :
    ∀ i, i ∈ treeIds (TailwindConfigL.merge a b n).1 →
      i ∉ treeIds a ∧ i ∉ treeIds b := by
  intro i hi
  have hg := deepMergeLGo_fresh a.theme b.theme n
  have hni : n ≤ i := by
    simp only [TailwindConfigL.merge, treeIds, List.mem_cons] at hi
    rcases hi with hi | hi
    · omega
    · exact hg.2.2 i hi
  exact ⟨fun hmem => by have := ha i hmem; omega,
         fun hmem => by have := hb i hmem; omega⟩

/-- Witness for C5: two one-node-deep labelled theme trees with identities
0-3 and counter 4; the merged tree shares no identity with either. -/
theorem C5_merge_no_aliasing_witness :
    (∀ i, i ∈ treeIds (TailwindConfigL.mk ["c"] 0
        (LEntries.cons "k" (LVal.dict 1 LEntries.nil) LEntries.nil) []) → i < 4) ∧
    (∀ i, i ∈ treeIds (TailwindConfigL.mk ["d"] 2
        (LEntries.cons "k" (LVal.dict 3 LEntries.nil) LEntries.nil) []) → i < 4) ∧
    ∀ i, i ∈ treeIds ((TailwindConfigL.mk ["c"] 0
        (LEntries.cons "k" (LVal.dict 1 LEntries.nil) LEntries.nil) []).merge
      (TailwindConfigL.mk ["d"] 2
        (LEntries.cons "k" (LVal.dict 3 LEntries.nil) LEntries.nil) []) 4).1 →
      i ∉ treeIds (TailwindConfigL.mk ["c"] 0
        (LEntries.cons "k" (LVal.dict 1 LEntries.nil) LEntries.nil) []) ∧
      i ∉ treeIds (TailwindConfigL.mk ["d"] 2
        (LEntries.cons "k" (LVal.dict 3 LEntries.nil) LEntries.nil) []) := by
  refine ⟨?_, ?_, ?_⟩
  · decide
  · decide
  · exact C5_merge_no_aliasing
      (TailwindConfigL.mk ["c"] 0
        (LEntries.cons "k" (LVal.dict 1 LEntries.nil) LEntries.nil) [])
      (TailwindConfigL.mk ["d"] 2
        (LEntries.cons "k" (LVal.dict 3 LEntries.nil) LEntries.nil) []) 4
      (by decide) (by decide)

theorem strOverride_present (env : Env) (key v old : String)
    (h : envTruthy (getenv env key) = some v) : strOverride env key old = v := by
  simp [strOverride, h]

theorem boolOverride_present (env : Env) (key v : String) (bv old : Bool)
    (h : envTruthy (getenv env key) = some v) (hp : bool_from_env (some v) = some bv) :
    boolOverride env key old = bv := by
  simp [boolOverride, h, hp]

/-- C6: when the config script provides a `build_config` value and
resolution runs with environment application enabled, every recognized
build environment variable that is present (truthy) and — for the boolean
variables — parseable overrides the script-provided field: the resolved
BuildConfig holds the environment value, not the script value. -/
theorem C6_env_overrides_beat_script (jsonLoads : String → Option (List (String × PyVal)))
    (env : Env) (s : ConfigScript) (b : BuildConfig) (r : Resolution)
    (hbc : s.build_config = BCVar.inst b)
    (hload : load_pysme_config jsonLoads env (ScriptOutcome.ok s) true = Except.ok r) :
    (∀ v, envTruthy (getenv env "PYSME_ENTRY_POINT") = some v →
      r.configs.build.entry_point = v) ∧
    (∀ v, envTruthy (getenv env "PYSME_OUTPUT_DIR") = some v →
      r.configs.build.output_dir = v) ∧
    (∀ v, envTruthy (getenv env "PYSME_STATIC_DIR") = some v →
      r.configs.build.static_dir = v) ∧
    (∀ v, envTruthy (getenv env "PYSME_WASM_TARGET") = some v →
      r.configs.build.wasm_target = v) ∧
    (∀ v, envTruthy (getenv env "PYSME_OPT_LEVEL") = some v →
      r.configs.build.optimization_level = v) ∧
    (∀ v bv, envTruthy (getenv env "PYSME_BUNDLE_SPLITTING") = some v →
      bool_from_env (some v) = some bv → r.configs.build.bundle_splitting = bv) ∧
    (∀ v bv, envTruthy (getenv env "PYSME_TREE_SHAKING") = some v →
      bool_from_env (some v) = some bv → r.configs.build.tree_shaking = bv) := by
  rcases hex : extractTailwind s.tailwind_config with err | tc
  · simp only [load_pysme_config, hbc, extractBuild, hex] at hload
    exact absurd hload (by simp)
  · simp only [load_pysme_config, hbc, extractBuild, hex] at hload
    injection hload with h
    subst h
    refine ⟨?_, ?_, ?_, ?_, ?_, ?_, ?_⟩
    · intro v hv
      simp [apply_env_overrides_build, strOverride_present env _ v _ hv]
    · intro v hv
      simp [apply_env_overrides_build, strOverride_present env _ v _ hv]
    · intro v hv
      simp [apply_env_overrides_build, strOverride_present env _ v _ hv]
    · intro v hv
      simp [apply_env_overrides_build, strOverride_present env _ v _ hv]
    · intro v hv
      simp [apply_env_overrides_build, strOverride_present env _ v _ hv]
    · intro v bv hv hp
      simp [apply_env_overrides_build, boolOverride_present env _ v bv _ hv hp]
    · intro v bv hv hp
      simp [apply_env_overrides_build, boolOverride_present env _ v bv _ hv hp]

/-- Witness for C6: a script-provided BuildConfig whose every field is
overridden by a concrete environment. -/
theorem C6_env_overrides_beat_script_witness :
    (ConfigScript.mk (BCVar.inst {}) TWVar.absent Option.none []).build_config =
      BCVar.inst {} ∧
    load_pysme_config (fun _ => Option.none)
        [("PYSME_ENTRY_POINT", "main.pysme"), ("PYSME_OPT_LEVEL", "debug"),
         ("PYSME_BUNDLE_SPLITTING", "yes")]
        (ScriptOutcome.ok (ConfigScript.mk (BCVar.inst {}) TWVar.absent Option.none []))
        true =
      Except.ok
        { configs :=
            { build := { entry_point := "main.pysme", optimization_level := "debug"
                         bundle_splitting := true }
              tailwind := {}
              raw := some [] }
          loggingCall := some Option.none } ∧
    ∀ r, load_pysme_config (fun _ => Option.none)
        [("PYSME_ENTRY_POINT", "main.pysme"), ("PYSME_OPT_LEVEL", "debug"),
         ("PYSME_BUNDLE_SPLITTING", "yes")]
        (ScriptOutcome.ok (ConfigScript.mk (BCVar.inst {}) TWVar.absent Option.none []))
        true = Except.ok r →
      r.configs.build.entry_point = "main.pysme" ∧
      r.configs.build.optimization_level = "debug" ∧
      r.configs.build.bundle_splitting = true := by
  refine ⟨rfl, rfl, ?_⟩
  intro r hr
  have h := C6_env_overrides_beat_script (fun _ => Option.none)
    [("PYSME_ENTRY_POINT", "main.pysme"), ("PYSME_OPT_LEVEL", "debug"),
     ("PYSME_BUNDLE_SPLITTING", "yes")]
    (ConfigScript.mk (BCVar.inst {}) TWVar.absent Option.none []) {} r rfl hr
  exact ⟨h.1 "main.pysme" (by decide), h.2.2.2.2.1 "debug" (by decide),
    h.2.2.2.2.2.1 "yes" true (by decide) (by decide)⟩

/-- C7: the script-level `debug` variable takes precedence over the
environment debug variable — with the script binding `debug = False` and
`PYSME_DEBUG` parsing to true, `configure_logging` receives
`debug=False`. -/
theorem C7_script_debug_beats_env (jsonLoads : String → Option (List (String × PyVal)))
    (env : Env) (s : ConfigScript) (r : Resolution) (ae : Bool)
    (hdbg : s.debug = some (PyVal.bool false))
    (_henv : bool_from_env (getenv env "PYSME_DEBUG") = some true)
    (hload : load_pysme_config jsonLoads env (ScriptOutcome.ok s) ae = Except.ok r) :
    r.loggingCall = some (some false) := by
  rcases hbx : extractBuild s.build_config with err | bc
  · simp only [load_pysme_config, hbx] at hload
    exact absurd hload (by simp)
  · rcases hex : extractTailwind s.tailwind_config with err | tc
    · simp only [load_pysme_config, hbx, hex] at hload
      exact absurd hload (by simp)
    · simp only [load_pysme_config, hbx, hex, hdbg] at hload
      injection hload with h
      subst h
      rfl

/-- Witness for C7: concrete script with `debug = False` and environment
with `PYSME_DEBUG=1`. -/
theorem C7_script_debug_beats_env_witness :
    (ConfigScript.mk BCVar.absent TWVar.absent (some (PyVal.bool false)) []).debug =
      some (PyVal.bool false) ∧
    bool_from_env (getenv [("PYSME_DEBUG", "1")] "PYSME_DEBUG") = some true ∧
    ∀ r, load_pysme_config (fun _ => Option.none) [("PYSME_DEBUG", "1")]
        (ScriptOutcome.ok
          (ConfigScript.mk BCVar.absent TWVar.absent (some (PyVal.bool false)) []))
        true = Except.ok r →
      r.loggingCall = some (some false) := by
  refine ⟨rfl, by decide, ?_⟩
  intro r hr
  exact C7_script_debug_beats_env (fun _ => Option.none) [("PYSME_DEBUG", "1")]
    (ConfigScript.mk BCVar.absent TWVar.absent (some (PyVal.bool false)) []) r true
    rfl (by decide) hr

/-- C8: resolving a nonexistent config path never raises: it returns the
default BuildConfig and TailwindConfig with environment overrides applied
on top when environment application is enabled (and the plain defaults
when it is disabled), and configures logging from the environment only
(no debug argument). -/
theorem C8_missing_path_defaults (jsonLoads : String → Option (List (String × PyVal)))
    (env : Env) :
    load_pysme_config jsonLoads env ScriptOutcome.missing true =
      Except.ok
        { configs :=
            { build := (apply_env_overrides jsonLoads env {} {}).1
              tailwind := (apply_env_overrides jsonLoads env {} {}).2
              raw := some [] }
          loggingCall := some Option.none } ∧
    load_pysme_config jsonLoads env ScriptOutcome.missing false =
      Except.ok { configs := make_defaults, loggingCall := some Option.none } :=
  ⟨rfl, rfl⟩

/-- C9: the environment override layer bypasses the BuildConfig
construction invariant: whatever non-empty string `PYSME_OPT_LEVEL` holds
— "fastest" in the witness, not a member of {release, debug} — resolution
succeeds and the resolved optimization level is that string verbatim; no
validation runs at override time (`_apply_env_overrides` assigns the
dataclass field directly, and `__post_init__` only runs at
construction). -/
theorem C9_env_opt_level_unvalidated (jsonLoads : String → Option (List (String × PyVal)))
    (env : Env) (b : BuildConfig) (t : TailwindConfig) (v : String) (r : Resolution)
    (hv : envTruthy (getenv env "PYSME_OPT_LEVEL") = some v)
    (hload : load_pysme_config jsonLoads env ScriptOutcome.missing true = Except.ok r) :
    (apply_env_overrides jsonLoads env b t).1.optimization_level = v ∧
    r.configs.build.optimization_level = v := by
  refine ⟨by simp [apply_env_overrides_build, strOverride_present env _ v _ hv], ?_⟩
  simp only [load_pysme_config] at hload
  injection hload with h
  subst h
  simp [apply_env_overrides_build, strOverride_present env _ v _ hv]

/-- Witness for C9: the environment sets the invalid level "fastest" and
the resolved config carries it verbatim. -/
theorem C9_env_opt_level_unvalidated_witness :
    envTruthy (getenv [("PYSME_OPT_LEVEL", "fastest")] "PYSME_OPT_LEVEL") =
      some "fastest" ∧
    "fastest" ∉ VALID_OPT_LEVELS ∧
    load_pysme_config (fun _ => Option.none) [("PYSME_OPT_LEVEL", "fastest")]
        ScriptOutcome.missing true =
      Except.ok
        { configs := { build := { optimization_level := "fastest" }, tailwind := {}
                       raw := some [] }
          loggingCall := some Option.none } ∧
    ∀ r, load_pysme_config (fun _ => Option.none) [("PYSME_OPT_LEVEL", "fastest")]
        ScriptOutcome.missing true = Except.ok r →
      r.configs.build.optimization_level = "fastest" := by
  refine ⟨by decide, by decide, rfl, ?_⟩
  intro r hr
  exact (C9_env_opt_level_unvalidated (fun _ => Option.none)
    [("PYSME_OPT_LEVEL", "fastest")] {} {} "fastest" r (by decide) hr).2

/-- C10: when the config script exists but its execution fails (and
likewise when no usable import spec can be built), resolution returns
`_make_defaults()` immediately: no environment overrides are applied even
though the caller requested them (`ae` is arbitrary, in particular true),
and `configure_logging` is never called on this path — unlike the
nonexistent-path case. -/
theorem C10_exec_error_skips_overrides (jsonLoads : String → Option (List (String × PyVal)))
    (env : Env) (ae : Bool) :
    load_pysme_config jsonLoads env ScriptOutcome.execError ae =
      Except.ok { configs := make_defaults, loggingCall := Option.none } ∧
    load_pysme_config jsonLoads env ScriptOutcome.specFailed ae =
      Except.ok { configs := make_defaults, loggingCall := Option.none } ∧
    make_defaults = { build := {}, tailwind := {}, raw := some [] } :=
  ⟨rfl, rfl, rfl⟩

end PySME
